import Mathlib

/-!
Verification development for the `status_bar` repository (Rust): a shallow
embedding of the Battery and Memory periodic-sampling widgets
(`src/battery.rs`, `src/memory.rs`) and of the reference render hook in
`src/main.rs`, together with theorems settling the specification claims.

Modelling conventions:
* Rust `u64` values are `Nat` with explicit `< 2 ^ 64` bounds where overflow
  or parse range matters.
* `f64` values are modelled by `F64`: an exact rational together with the
  non-finite values `inf`, `negInf`, `nan`.  Rounding of real `f64`
  arithmetic is idealized to exact rational arithmetic (the spec only claims
  exactness "to floating-point tolerance"); non-finiteness, the sign of
  division by zero, and the panic conditions of `Duration::from_secs_f64`
  are modelled faithfully.
* `std::time::Duration` is modelled as an exact non-negative rational number
  of seconds (nanosecond rounding idealized away).
* A Rust panic (`expect` on a failed `File::open` or `parse`, or a panic
  inside `Duration::from_secs_f64`) is modelled by `Option`: `none` means
  the tick panics, which terminates the whole process.
* The filesystem seen by the Battery widget is a `BatteryFiles` record of
  `Option String` (`none` = the file is missing/unreadable, `some c` = the
  file reads as content `c`).
-/

/-- Style attributes (`cnx::text::Attributes`): font, colours, padding.
Opaque to the core, which only clones and passes them through; modelled as an
opaque token. -/
structure Attributes where
  token : ℕ
deriving DecidableEq, Repr

/-- A display fragment (`cnx::text::Text`). -/
structure Text where
  attr : Attributes
  text : String
  stretch : Bool
  markup : Bool
deriving DecidableEq, Repr

/-- Model of an `f64` value: an exact rational, or one of the non-finite
values.  (Rounding of finite `f64` arithmetic is idealized to exact rational
arithmetic.) -/
inductive F64 where
  | finite (val : ℚ)
  | inf
  | negInf
  | nan
deriving DecidableEq, Repr

/-- `a as f64 / b as f64` for `u64` values `a`, `b`, following IEEE-754
division: `x / 0` is `nan` when `x = 0`, `+inf` when `x > 0`. -/
def u64DivF64 (a b : ℕ) : F64 :=
  if b = 0 then (if a = 0 then F64.nan else F64.inf) else F64.finite ((a : ℚ) / (b : ℚ))

/-- Multiplication of an `f64` by a positive integer constant (used for
`3600.0 * estimated_hrs_left`): scales finite values, preserves `inf` and
`nan`. -/
def F64.mulConst (x : F64) (c : ℕ) : F64 :=
  match x with
  | F64.finite v => F64.finite (v * (c : ℚ))
  | F64.inf => F64.inf
  | F64.negInf => F64.negInf
  | F64.nan => F64.nan

/-- `std::time::Duration::from_secs_f64`: panics (`none`) when the argument
is not finite, is negative, or overflows `Duration` (seconds `≥ 2^64`);
otherwise the duration holding that many seconds. -/
def durationFromSecsF64 : F64 → Option ℚ
  | F64.finite v => if 0 ≤ v ∧ v < 2 ^ 64 then some v else none
  | _ => none

/-- Whitespace trimming on character lists (used to model `str::trim`):
drop whitespace from both ends. -/
def trimChars (cs : List Char) : List Char :=
  ((cs.dropWhile Char.isWhitespace).reverse.dropWhile Char.isWhitespace).reverse

/-- `str::trim`: the string with leading and trailing whitespace removed.
(Executable counterpart of `String.trim`, structural over the character
list so that concrete instances reduce.) -/
def strTrim (s : String) : String := String.mk (trimChars s.data)

/-- `str::parse::<u64>` on a character list: an optional leading `+`, then
one or more ASCII digits, value required to fit in a `u64`; anything else is
a parse error (`none`). -/
def parseU64Chars (cs : List Char) : Option ℕ :=
  let t := match cs with
    | '+' :: rest => rest
    | _ => cs
  if t ≠ [] ∧ t.all Char.isDigit then
    let v := t.foldl (fun acc c => 10 * acc + (c.toNat - 48)) 0
    if v < 2 ^ 64 then some v else none
  else none

/-- `str::parse::<u64>`. -/
def parseU64 (s : String) : Option ℕ := parseU64Chars s.data

/-- Battery statuses as written in `power_supply.h` (`ChargeStatus` in
`src/battery.rs`). -/
inductive ChargeStatus where
  | unknown
  | charging
  | discharging
  | notCharging
  | full
deriving DecidableEq, Repr

/-- `Debug` rendering of `ChargeStatus` (derived `Debug` prints the variant
name). -/
def ChargeStatus.debugStr : ChargeStatus → String
  | ChargeStatus.unknown => "Unknown"
  | ChargeStatus.charging => "Charging"
  | ChargeStatus.discharging => "Discharging"
  | ChargeStatus.notCharging => "NotCharging"
  | ChargeStatus.full => "Full"

/-- The Battery sample (`BatteryInfo` in `src/battery.rs`); `time_till_empty`
is a `Duration`, modelled as an exact rational number of seconds. -/
structure BatteryInfo where
  status : ChargeStatus
  capacity : ℕ
  time_till_empty : ℚ
deriving DecidableEq

/-- The battery sysfs directory as seen by one tick: the contents of the four
files `Battery::tick` opens.  `none` models a missing/unreadable file (the
corresponding `File::open(..).expect(..)` panics). -/
structure BatteryFiles where
  current_now : Option String
  charge_now : Option String
  capacity : Option String
  status : Option String

/-- The Battery widget (`Battery` in `src/battery.rs`). -/
structure Battery where
  attrs : Attributes
  render : Option (BatteryInfo → String)
  update_interval : ℚ
  battery_path : String

/-- `Battery::new`. -/
def Battery.new (attrs : Attributes) (render : Option (BatteryInfo → String))
    (update_interval : ℚ) (battery_path : String) : Battery :=
  { attrs := attrs, render := render, update_interval := update_interval,
    battery_path := battery_path }

/-- The status-string mapping of `Battery::tick` (`match temp_str.trim()`):
the four exact, case-sensitive matches, every other trimmed content mapping
to `Unknown`.  (A Rust `match` against string literals is a chain of
equality tests.) -/
def battStatusOf (content : String) : ChargeStatus :=
  let t := strTrim content
  if t = "Charging" then ChargeStatus.charging
  else if t = "Discharging" then ChargeStatus.discharging
  else if t = "Full" then ChargeStatus.full
  else if t = "Not Charging" then ChargeStatus.notCharging
  else ChargeStatus.unknown

/-- The read-and-parse phase of `Battery::tick` (src/battery.rs lines 50-99):
open the four files (a missing file panics), parse the three numeric fields
as `u64` after trimming (a parse failure panics), map the status string, and
derive `time_till_empty = Duration::from_secs_f64(3600.0 * charge/current)`
(which panics on a non-finite or overflowing value).  `none` = the tick
panics, terminating the process. -/
def Battery.sample (fs : BatteryFiles) : Option BatteryInfo := do
  let currentStr ← fs.current_now
  let chargeStr ← fs.charge_now
  let capacityStr ← fs.capacity
  let statusStr ← fs.status
  let current_micro_amps ← parseU64 (strTrim currentStr)
  let charge_micro_amp_hrs ← parseU64 (strTrim chargeStr)
  let current_percent ← parseU64 (strTrim capacityStr)
  let batt_status := battStatusOf statusStr
  let estimated_duration ←
    durationFromSecsF64 ((u64DivF64 charge_micro_amp_hrs current_micro_amps).mulConst 3600)
  some { status := batt_status, capacity := current_percent,
         time_till_empty := estimated_duration }

/-- `Duration` `Debug` formatting at precision 0 (`{:.0?}`): the value in
seconds when at least one second, otherwise in ms/µs/ns, rounded to an
integer (the exact-rational idealization of `Duration`'s `fmt_decimal`). -/
def durationDebug (q : ℚ) : String :=
  if 1 ≤ q then Nat.repr (round q).toNat ++ "s"
  else if 1 / 1000 ≤ q then Nat.repr (round (q * 1000)).toNat ++ "ms"
  else if 1 / 1000000 ≤ q then Nat.repr (round (q * 1000000)).toNat ++ "µs"
  else Nat.repr (round (q * 1000000000)).toNat ++ "ns"

/-- The built-in Battery formatter:
`format!("{:?} : {}%, : {:.0?}", status, capacity, time_till_empty)`. -/
def batteryDefaultFormat (info : BatteryInfo) : String :=
  info.status.debugStr ++ " : " ++ Nat.repr info.capacity ++ "%, : " ++
    durationDebug info.time_till_empty

/-- `Battery::tick` (src/battery.rs lines 49-116): sample, render through the
hook if one was supplied (else the built-in formatter), and wrap in a single
fragment with the constructed attributes, `stretch = false`, and
`markup = render.is_some()`. -/
def Battery.tick (b : Battery) (fs : BatteryFiles) : Option (List Text) :=
  (Battery.sample fs).map fun batt_info =>
    let text :=
      match b.render with
      | some render => render batt_info
      | none => batteryDefaultFormat batt_info
    [{ attr := b.attrs, text := text, stretch := false, markup := b.render.isSome }]

/-- Digits of the fractional part of a rational `0 ≤ q < 1` in decimal, with
fuel (the values displayed have power-of-two denominators, so the expansion
is finite and the fuel is never exhausted for them). -/
def fracDigits : ℕ → ℚ → List Char
  | 0, _ => []
  | fuel + 1, q =>
    if q = 0 then []
    else
      let d := (⌊q * 10⌋).toNat
      Nat.digitChar d :: fracDigits fuel (q * 10 - (d : ℚ))

/-- Display of a non-negative rational as Rust's `f64` `Display` shows the
corresponding value (idealized to the exact decimal expansion): integer part,
then `.` and the fractional digits when the value is not an integer. -/
def ratDisplay (q : ℚ) : String :=
  if q - ((⌊q⌋).toNat : ℚ) = 0 then Nat.repr (⌊q⌋).toNat
  else Nat.repr (⌊q⌋).toNat ++ "." ++ String.mk (fracDigits 256 (q - ((⌊q⌋).toNat : ℚ)))

/-- `byte_unit::Byte::get_appropriate_unit(UnitType::Binary)`: the byte
count scaled to the largest binary unit in which the value is at least 1
(`u64` counts never exceed the EiB range), paired with the unit's name. -/
def appropriateUnitBinary (b : ℕ) : ℚ × String :=
  if b < 1024 then ((b : ℚ), "B")
  else if b < 1024 ^ 2 then ((b : ℚ) / 1024, "KiB")
  else if b < 1024 ^ 3 then ((b : ℚ) / 1024 ^ 2, "MiB")
  else if b < 1024 ^ 4 then ((b : ℚ) / 1024 ^ 3, "GiB")
  else if b < 1024 ^ 5 then ((b : ℚ) / 1024 ^ 4, "TiB")
  else if b < 1024 ^ 6 then ((b : ℚ) / 1024 ^ 5, "PiB")
  else ((b : ℚ) / 1024 ^ 6, "EiB")

/-- `Display` of the adjusted byte value: value, a space, the unit name. -/
def adjustedDisplay (b : ℕ) : String :=
  let vu := appropriateUnitBinary b
  ratDisplay vu.1 ++ " " ++ vu.2

/-- The built-in Memory formatter:
`format!("({used_mem}/{total_mem}) ({used_swap}/{total_swap})", ..)` with
each quantity shown via `get_appropriate_unit(UnitType::Binary)`. -/
def memoryDefaultFormat (used_bytes total_bytes used_swap total_swap : ℕ) : String :=
  "(" ++ adjustedDisplay used_bytes ++ "/" ++ adjustedDisplay total_bytes ++ ") (" ++
    adjustedDisplay used_swap ++ "/" ++ adjustedDisplay total_swap ++ ")"

/-- The OS memory counters exposed by the refreshed `sysinfo::System`
handle, each an unsigned 64-bit byte count.  `used_memory` is the counter
the handle also exposes for used main memory; `MemoryUsage::tick` reads
`free_memory` instead (see `MemoryUsage.tick`). -/
structure MemCounters where
  free_memory : ℕ
  used_memory : ℕ
  total_memory : ℕ
  used_swap : ℕ
  total_swap : ℕ

/-- The Memory widget (`MemoryUsage` in `src/memory.rs`).  The render hook
takes the two `(Byte, Byte)` pairs. -/
structure MemoryUsage where
  attrs : Attributes
  render : Option ((ℕ × ℕ) → (ℕ × ℕ) → String)
  update_interval : ℚ

/-- `MemoryUsage::new`: takes attributes and the optional render hook; the
update interval is set to `Duration::new(1, 0)` (one second). -/
def MemoryUsage.new (attrs : Attributes)
    (render : Option ((ℕ × ℕ) → (ℕ × ℕ) → String)) : MemoryUsage :=
  { attrs := attrs, render := render, update_interval := 1 }

/-- `MemoryUsage::tick` (src/memory.rs lines 44-70): refresh the handle and
read the four counters (the refreshed counters are the `os` argument), then
render.  Note the source binds `used_bytes` to `free_memory()` (not
`used_memory()`); the three other reads are `total_memory()`, `used_swap()`,
`total_swap()`.  One fragment, `stretch = false`,
`markup = render.is_some()`. -/
def MemoryUsage.tick (m : MemoryUsage) (os : MemCounters) : List Text :=
  let used_bytes := os.free_memory
  let total_bytes := os.total_memory
  let used_swap := os.used_swap
  let total_swap := os.total_swap
  let text :=
    match m.render with
    | some render_f => render_f (used_bytes, total_bytes) (used_swap, total_swap)
    | none => memoryDefaultFormat used_bytes total_bytes used_swap total_swap
  [{ attr := m.attrs, text := text, stretch := false, markup := m.render.isSome }]

/-- Firing times of the periodic stream built by `into_stream` from
`tokio::time::interval(update_interval)` wrapped in an `IntervalStream`:
by tokio's documented `interval` semantics the first tick completes
immediately, and (with fast ticks, under the default missed-tick behaviour)
tick `n` (0-indexed) completes at `n * period` after stream start. -/
def intervalFireTime (period : ℚ) (n : ℕ) : ℚ := (n : ℚ) * period

/-- Start time of the `N`-th batch (1-indexed) of a widget stream with the
given period: batch `N` is produced by firing `N - 1`. -/
def nthBatchTime (period : ℚ) (N : ℕ) : ℚ := intervalFireTime period (N - 1)

/-- The `N`-th batch time of a Battery widget's stream
(`<Battery as Widget>::into_stream`). -/
def Battery.nthBatch (b : Battery) (N : ℕ) : ℚ := nthBatchTime b.update_interval N

/-- The `N`-th batch time of a Memory widget's stream
(`<MemoryUsage as Widget>::into_stream`). -/
def MemoryUsage.nthBatch (m : MemoryUsage) (N : ℕ) : ℚ := nthBatchTime m.update_interval N

/-- Colours produced by the reference render hook's threshold logic in
`src/main.rs` (`Color::white()/yellow()/red()`); they realise the spec's
normal/warning/critical alert states, in that order. -/
inductive Colour where
  | white
  | yellow
  | red
deriving DecidableEq, Repr

/-- Alert rank of a colour: white/normal 0, yellow/warning 1,
red/critical 2. -/
def Colour.rank : Colour → ℕ
  | Colour.white => 0
  | Colour.yellow => 1
  | Colour.red => 2

/-- The threshold computation of the reference render hook in
`memory_usage_widget` (src/main.rs lines 125-141): start white, yellow once
`used >= total / 2`, red once `used >= total / 5 * 4` (Rust `u64` floor
division).  The hook computes this once for main memory and once for
swap. -/
def memColour (used total : ℕ) : Colour :=
  let c := Colour.white
  let c := if used ≥ total / 2 then Colour.yellow else c
  let c := if used ≥ total / 5 * 4 then Colour.red else c
  c

/-- The pair of colours the reference hook computes on one tick: the same
threshold logic applied independently to (used, total) of main memory and of
swap. -/
def memoryWidgetColours (used_memory total_memory used_swap total_swap : ℕ) :
    Colour × Colour :=
  (memColour used_memory total_memory, memColour used_swap total_swap)

/-- The claim's threshold classification, following the spec's words, for
comparison with `memColour`: normal (white) below 50% of total, warning
(yellow) from 50% up to but excluding 80%, critical (red) at or above 80%
of total. -/
def specThresholdColour (used total : ℕ) : Colour :=
  if 5 * used ≥ 4 * total then Colour.red
  else if 2 * used ≥ total then Colour.yellow
  else Colour.white

/-- The character is not one of the markup-reserved characters of the
downstream inline-markup syntax (Pango-style spans): `<`, `>`, `&`. -/
def safeChar (c : Char) : Prop :=
  c ≠ '<' ∧ c ≠ '>' ∧ c ≠ '&'

instance (c : Char) : Decidable (safeChar c) := by
  unfold safeChar; infer_instance

/-- No markup-reserved character occurs in the string. -/
def noMarkupChars (s : String) : Prop :=
  ∀ c ∈ s.data, safeChar c

instance (s : String) : Decidable (noMarkupChars s) := by
  unfold noMarkupChars; infer_instance

/-- A concrete attribute token for concrete instantiations. -/
def attrs0 : Attributes := { token := 0 }

/-- A Battery widget as `main.rs` constructs one, but without a render hook:
30-second interval, `BAT1` sysfs directory. -/
def batt0 : Battery := Battery.new attrs0 none 30 "/sys/class/power_supply/BAT1/"

/-- A Memory widget without a render hook. -/
def mem0 : MemoryUsage := MemoryUsage.new attrs0 none

/-- A Memory widget with a (constant) render hook. -/
def memHook : MemoryUsage := MemoryUsage.new attrs0 (some fun _ _ => "M")

/-- A render hook that reports the first component of the first pair it is
handed (used to observe which counter `MemoryUsage::tick` passes as "used
main memory"). -/
def recordFirstHook : (ℕ × ℕ) → (ℕ × ℕ) → String := fun p _ => Nat.repr p.1

/-- A Memory widget carrying `recordFirstHook`. -/
def memRecord : MemoryUsage := MemoryUsage.new attrs0 (some recordFirstHook)

/-- Concrete refreshed OS counters: 12 GiB free, 4 GiB used, 16 GiB total
main memory; no swap used of a 2 GiB swap. -/
def osCx : MemCounters :=
  { free_memory := 12884901888, used_memory := 4294967296,
    total_memory := 17179869184, used_swap := 0, total_swap := 2147483648 }

/-- All-zero OS counters. -/
def osProbe : MemCounters :=
  { free_memory := 0, used_memory := 0, total_memory := 0,
    used_swap := 0, total_swap := 0 }

/-- Battery files of spec Scenario 1: `current_now=500000`,
`charge_now=2000000`, `capacity=73`, `status="Discharging"`. -/
def fsS1 : BatteryFiles :=
  { current_now := some "500000\n", charge_now := some "2000000\n",
    capacity := some "73\n", status := some "Discharging\n" }

/-- Scenario 1 files but with `current_now` reading `0`. -/
def filesZeroCurrent : BatteryFiles :=
  { current_now := some "0\n", charge_now := some "2000000\n",
    capacity := some "73\n", status := some "Discharging\n" }

/-- Battery files whose numeric fields parse (`current=1`,
`charge=10^19`, both valid `u64` values) but whose derived duration
overflows `Duration`. -/
def filesOverflow : BatteryFiles :=
  { current_now := some "1", charge_now := some "10000000000000000000",
    capacity := some "73", status := some "Discharging" }

/-- Battery files with valid numerics and an unrecognized status string. -/
def fsProbe : BatteryFiles :=
  { current_now := some "1", charge_now := some "0",
    capacity := some "50", status := some "Plugged" }

/-- The sample `fsProbe` produces: unknown status, 50%, zero time left. -/
def infoProbe : BatteryInfo :=
  { status := ChargeStatus.unknown, capacity := 50, time_till_empty := 0 }

/-- The fragment `batt0` emits on `fsProbe`. -/
def fragProbe : Text :=
  { attr := attrs0, text := batteryDefaultFormat infoProbe,
    stretch := false, markup := false }

/-- String concatenation concatenates the underlying character lists. -/
theorem string_data_append (s t : String) : (s ++ t).data = s.data ++ t.data := rfl

/-- `Nat.digitChar` only ever produces digits, `a`-`f`, or `*`; never a
markup-reserved character. -/
theorem safeChar_digitChar (n : ℕ) : safeChar (Nat.digitChar n) := by
  rcases lt_or_ge n 16 with h | h
  · interval_cases n <;> decide
  · unfold Nat.digitChar
    repeat rw [if_neg (by omega)]
    decide

/-- All characters `Nat.toDigitsCore` accumulates are digit characters or
come from the accumulator. -/
theorem safeChar_toDigitsCore (b fuel n : ℕ) (ds : List Char)
    (hds : ∀ c ∈ ds, safeChar c) :
    ∀ c ∈ Nat.toDigitsCore b fuel n ds, safeChar c := by
  induction fuel generalizing n ds with
  | zero => simpa [Nat.toDigitsCore] using hds
  | succ fuel ih =>
    intro c hc
    rw [Nat.toDigitsCore] at hc
    by_cases h0 : n / b = 0
    · simp only [h0, if_pos rfl] at hc
      rcases List.mem_cons.mp hc with h | h
      · exact h ▸ safeChar_digitChar _
      · exact hds c h
    · simp only [if_neg h0] at hc
      refine ih (n / b) (Nat.digitChar (n % b) :: ds) ?_ c hc
      intro d hd
      rcases List.mem_cons.mp hd with h | h
      · exact h ▸ safeChar_digitChar _
      · exact hds d h

/-- Decimal representations of naturals contain no markup-reserved
characters. -/
theorem noMarkupChars_natRepr (n : ℕ) : noMarkupChars (Nat.repr n) := by
  intro c hc
  exact safeChar_toDigitsCore 10 (n + 1) n [] (by simp) c hc

/-- Appending strings preserves the absence of markup-reserved
characters. -/
theorem noMarkupChars_append (s t : String) (hs : noMarkupChars s)
    (ht : noMarkupChars t) : noMarkupChars (s ++ t) := by
  intro c hc
  rw [string_data_append, List.mem_append] at hc
  rcases hc with h | h
  · exact hs c h
  · exact ht c h

/-- The fractional-digit expansion contains only digit characters. -/
theorem safeChar_fracDigits (fuel : ℕ) (q : ℚ) :
    ∀ c ∈ fracDigits fuel q, safeChar c := by
  induction fuel generalizing q with
  | zero => simp [fracDigits]
  | succ fuel ih =>
    intro c hc
    rw [fracDigits] at hc
    split at hc
    · simp at hc
    · rcases List.mem_cons.mp hc with h | h
      · exact h ▸ safeChar_digitChar _
      · exact ih _ c h

/-- `ratDisplay` contains no markup-reserved characters. -/
theorem noMarkupChars_ratDisplay (q : ℚ) : noMarkupChars (ratDisplay q) := by
  unfold ratDisplay
  split
  · exact noMarkupChars_natRepr _
  · refine noMarkupChars_append _ _ (noMarkupChars_append _ _ (noMarkupChars_natRepr _) ?_) ?_
    · decide
    · intro c hc
      exact safeChar_fracDigits 256 _ c hc

/-- The binary unit names contain no markup-reserved characters. -/
theorem noMarkupChars_unitName (b : ℕ) :
    noMarkupChars (appropriateUnitBinary b).2 := by
  unfold appropriateUnitBinary
  repeat' split
  all_goals exact of_decide_eq_true rfl

/-- `adjustedDisplay` contains no markup-reserved characters. -/
theorem noMarkupChars_adjustedDisplay (b : ℕ) :
    noMarkupChars (adjustedDisplay b) := by
  unfold adjustedDisplay
  exact noMarkupChars_append _ _
    (noMarkupChars_append _ _ (noMarkupChars_ratDisplay _) (by decide))
    (noMarkupChars_unitName b)

/-- The built-in Memory formatter's output contains no markup-reserved
characters. -/
theorem noMarkupChars_memoryDefaultFormat (um tm us ts : ℕ) :
    noMarkupChars (memoryDefaultFormat um tm us ts) := by
  unfold memoryDefaultFormat
  refine noMarkupChars_append _ _ ?_ (by decide)
  refine noMarkupChars_append _ _ ?_ (noMarkupChars_adjustedDisplay _)
  refine noMarkupChars_append _ _ ?_ (by decide)
  refine noMarkupChars_append _ _ ?_ (noMarkupChars_adjustedDisplay _)
  refine noMarkupChars_append _ _ ?_ (by decide)
  refine noMarkupChars_append _ _ ?_ (noMarkupChars_adjustedDisplay _)
  refine noMarkupChars_append _ _ ?_ (by decide)
  exact noMarkupChars_append _ _ (by decide) (noMarkupChars_adjustedDisplay _)

/-- `durationDebug` contains no markup-reserved characters. -/
theorem noMarkupChars_durationDebug (q : ℚ) :
    noMarkupChars (durationDebug q) := by
  unfold durationDebug
  repeat' split
  all_goals exact noMarkupChars_append _ _ (noMarkupChars_natRepr _) (by decide)

/-- `ChargeStatus` debug names contain no markup-reserved characters. -/
theorem noMarkupChars_debugStr (st : ChargeStatus) :
    noMarkupChars st.debugStr := by
  cases st
  all_goals decide

/-- The built-in Battery formatter's output contains no markup-reserved
characters. -/
theorem noMarkupChars_batteryDefaultFormat (info : BatteryInfo) :
    noMarkupChars (batteryDefaultFormat info) := by
  unfold batteryDefaultFormat
  refine noMarkupChars_append _ _ ?_ (noMarkupChars_durationDebug _)
  refine noMarkupChars_append _ _ ?_ (by decide)
  refine noMarkupChars_append _ _ ?_ (noMarkupChars_natRepr _)
  exact noMarkupChars_append _ _ (noMarkupChars_debugStr _) (by decide)

/-- Any status content whose trimmed form is none of the four recognized
strings maps to `Unknown`. -/
theorem battStatusOf_eq_unknown (s : String)
    (h : strTrim s ∉ (["Charging", "Discharging", "Full", "Not Charging"] : List String)) :
    battStatusOf s = ChargeStatus.unknown := by
  simp only [List.mem_cons, List.not_mem_nil, or_false, not_or] at h
  obtain ⟨h1, h2, h3, h4⟩ := h
  simp only [battStatusOf]
  rw [if_neg h1, if_neg h2, if_neg h3, if_neg h4]

/-- Concrete evaluation: sampling `fsProbe` succeeds with `infoProbe`. -/
theorem sample_fsProbe : Battery.sample fsProbe = some infoProbe := by
  have h1 : parseU64 (strTrim "1") = some 1 := by decide
  have h2 : parseU64 (strTrim "0") = some 0 := by decide
  have h3 : parseU64 (strTrim "50") = some 50 := by decide
  have h4 : battStatusOf "Plugged" = ChargeStatus.unknown := by decide
  simp [Battery.sample, fsProbe, infoProbe, h1, h2, h3, h4, u64DivF64,
    F64.mulConst, durationFromSecsF64]

/-- Concrete evaluation: `batt0` ticking on `fsProbe` emits exactly
`fragProbe`. -/
theorem tick_fsProbe : batt0.tick fsProbe = some [fragProbe] := by
  rw [Battery.tick, sample_fsProbe]
  rfl

/-- C1: the claim says a battery tick with `current_now` reading `0` completes
without crashing and hands a well-defined sentinel `time_till_empty` to the
render hook / default formatter.  The code instead divides by zero, producing
`+Inf` (or `NaN` when the charge is also 0), and `Duration::from_secs_f64`
panics on the non-finite value, killing the process: the tick produces no
sample and no fragment at all.  This theorem evaluates the embedded code at
the failing inputs. -/
theorem C1_zero_current_tick_panics :
    Battery.tick batt0 filesZeroCurrent = none ∧
    Battery.sample filesZeroCurrent = none ∧
    Battery.sample
      { current_now := some "0\n", charge_now := some "0\n",
        capacity := some "73\n", status := some "Discharging\n" } = none := by
  decide

/-- C2: the claim says the first `(used, total)` pair handed to the render
hook is (used main memory, total main memory).  The code reads
`free_memory()` into that slot: with free = 12 GiB and used = 4 GiB, the
hook observes 12884901888 (the free counter), not 4294967296 (the used
counter).  The second components and the swap pair are as claimed. -/
theorem C2_first_pair_is_free_memory :
    (memRecord.tick osCx).map Text.text = [Nat.repr osCx.free_memory] ∧
    osCx.free_memory ≠ osCx.used_memory ∧
    osCx.free_memory = 12884901888 ∧ osCx.used_memory = 4294967296 := by
  decide

/-- C4: the battery status mapping is a total, case-sensitive function of the
whitespace-trimmed file content: the four exact matches, `Unknown` for every
other string; in particular `"Not Charging"` (with or without surrounding
whitespace) yields `NotCharging`, and case variants fall to `Unknown`. -/
theorem C4_status_mapping (s : String) :
    battStatusOf "Charging" = ChargeStatus.charging ∧
    battStatusOf "Discharging" = ChargeStatus.discharging ∧
    battStatusOf "Full" = ChargeStatus.full ∧
    battStatusOf "Not Charging" = ChargeStatus.notCharging ∧
    battStatusOf " Not Charging\n" = ChargeStatus.notCharging ∧
    battStatusOf "charging" = ChargeStatus.unknown ∧
    battStatusOf "NOT CHARGING" = ChargeStatus.unknown ∧
    (strTrim s ∉ (["Charging", "Discharging", "Full", "Not Charging"] : List String) →
      battStatusOf s = ChargeStatus.unknown) :=
  ⟨by decide, by decide, by decide, by decide, by decide, by decide, by decide,
    battStatusOf_eq_unknown s⟩

/-- C4 witness: the catch-all branch at the concrete unrecognized content
`"Plugged"`. -/
theorem C4_status_mapping_witness :
    strTrim "Plugged" ∉ (["Charging", "Discharging", "Full", "Not Charging"] : List String) ∧
    battStatusOf "Plugged" = ChargeStatus.unknown :=
  ⟨by decide, (C4_status_mapping "Plugged").2.2.2.2.2.2.2 (by decide)⟩

/-- C9 counterexample: the claim says the constructor of each widget accepts
the polling interval; `MemoryUsage::new` takes only attributes and the
optional render hook, and every constructed Memory widget has the fixed
1-second interval — no construction yields, e.g., a 30-second one. -/
theorem C9_memory_interval_not_configurable :
    ¬ ∃ (a : Attributes) (r : Option ((ℕ × ℕ) → (ℕ × ℕ) → String)),
      (MemoryUsage.new a r).update_interval = 30 := by
  rintro ⟨a, r, h⟩
  simp only [MemoryUsage.new] at h
  norm_num at h

/-- C9 as amended: `Battery::new` accepts the polling interval its stream
then fires at; `MemoryUsage::new` accepts none — every Memory widget is
constructed with the fixed 1-second interval, which its stream then
uses. -/
theorem C9_intervals_at_construction (a : Attributes)
    (r : Option (BatteryInfo → String)) (i : ℚ) (p : String) (ra : Attributes)
    (rr : Option ((ℕ × ℕ) → (ℕ × ℕ) → String)) (N : ℕ) :
    (Battery.new a r i p).update_interval = i ∧
    (Battery.new a r i p).nthBatch N = nthBatchTime i N ∧
    (MemoryUsage.new ra rr).update_interval = 1 ∧
    (MemoryUsage.new ra rr).nthBatch N = nthBatchTime 1 N :=
  ⟨rfl, rfl, rfl, rfl⟩

/-- C5 counterexample: the claim says no firing happens at t=0 and the Nth
batch comes no earlier than N×30s.  `tokio::time::interval`'s first tick
completes immediately, so a widget with a 30-second interval produces its
first batch at time 0, earlier than 1×30s. -/
theorem C5_first_batch_at_time_zero :
    batt0.update_interval = 30 ∧
    batt0.nthBatch 1 = 0 ∧
    ¬ (30 ≤ batt0.nthBatch 1) := by
  refine ⟨rfl, ?_, ?_⟩
  · simp [Battery.nthBatch, nthBatchTime, intervalFireTime]
  · simp [Battery.nthBatch, nthBatchTime, intervalFireTime]

/-- C5 as amended: firings occur unboundedly at the configured fixed
interval, but the first firing completes immediately at t=0, so the Nth
batch (N ≥ 1) of either widget's stream is produced at (N−1)×interval after
stream start, not N×interval. -/
theorem C5_batches_at_interval_multiples (b : Battery) (m : MemoryUsage)
    (N : ℕ) (hN : 1 ≤ N) (T : ℚ) (hb : 0 < b.update_interval) :
    b.nthBatch N = ((N : ℚ) - 1) * b.update_interval ∧
    m.nthBatch N = ((N : ℚ) - 1) * m.update_interval ∧
    b.nthBatch 1 = 0 ∧
    ∃ M : ℕ, 1 ≤ M ∧ T < b.nthBatch M := by
  have hcast : ((N - 1 : ℕ) : ℚ) = (N : ℚ) - 1 := by
    push_cast [Nat.cast_sub hN]
    ring
  refine ⟨?_, ?_, ?_, ?_⟩
  · simp [Battery.nthBatch, nthBatchTime, intervalFireTime, hcast]
  · simp [MemoryUsage.nthBatch, nthBatchTime, intervalFireTime, hcast]
  · simp [Battery.nthBatch, nthBatchTime, intervalFireTime]
  · refine ⟨(⌈T / b.update_interval⌉).toNat + 2, by omega, ?_⟩
    have h1 : T / b.update_interval ≤ ((⌈T / b.update_interval⌉).toNat : ℚ) := by
      calc T / b.update_interval ≤ ((⌈T / b.update_interval⌉ : ℤ) : ℚ) :=
            Int.le_ceil _
      _ ≤ (((⌈T / b.update_interval⌉).toNat : ℤ) : ℚ) := by
            exact_mod_cast Int.self_le_toNat _
    have h2 : T ≤ ((⌈T / b.update_interval⌉).toNat : ℚ) * b.update_interval :=
      (div_le_iff₀ hb).mp h1
    have h3 : b.nthBatch ((⌈T / b.update_interval⌉).toNat + 2) =
        (((⌈T / b.update_interval⌉).toNat + 1 : ℕ) : ℚ) * b.update_interval := by
      simp [Battery.nthBatch, nthBatchTime, intervalFireTime]
    rw [h3]
    push_cast
    nlinarith

/-- C5 witness: the amended statement at N=3 with 30s and 1s intervals, and
unboundedness past T=1000. -/
theorem C5_batches_witness :
    batt0.nthBatch 3 = 60 ∧ mem0.nthBatch 3 = 2 ∧
    ∃ M : ℕ, 1 ≤ M ∧ 1000 < batt0.nthBatch M := by
  have h := C5_batches_at_interval_multiples batt0 mem0 3 (by norm_num) 1000
    (by norm_num [batt0, Battery.new])
  refine ⟨?_, ?_, h.2.2.2⟩
  · rw [h.1]
    norm_num [batt0, Battery.new]
  · rw [h.2.1]
    norm_num [mem0, MemoryUsage.new]

/-- C7 counterexample: the claim puts the normal/warning boundary at exactly
50% and the critical boundary at exactly 80%.  The hook computes with `u64`
floor division (`total / 2`, `total / 5 * 4`): at used=4, total=9 the code
classifies critical (red), although 4 is below 50% of 9 (and below 80%), so
the claimed classification would be normal. -/
theorem C7_threshold_floor_division :
    memColour 4 9 = Colour.red ∧ specThresholdColour 4 9 = Colour.white ∧
    2 * 4 < 9 ∧ 5 * 4 < 4 * 9 := by
  decide

/-- C7 as amended: the hook's classification is normal below `total / 2`,
warning from `total / 2` up to `total / 5 * 4`, critical at or above
`total / 5 * 4` (floor divisions — approximately 50% / 80%, exactly those
percentages whenever 10 divides total); it is monotonic in `used` for fixed
total, applied independently to main memory and swap, and classifies 13 GiB
of 16 GiB (81.25%) as critical. -/
theorem C7_thresholds (used u2 total : ℕ) (h : used ≤ u2) :
    (memColour used total).rank ≤ (memColour u2 total).rank ∧
    (memColour used total = Colour.red ↔ total / 5 * 4 ≤ used) ∧
    (memColour used total = Colour.yellow ↔
      total / 2 ≤ used ∧ used < total / 5 * 4) ∧
    (memColour used total = Colour.white ↔
      used < total / 2 ∧ used < total / 5 * 4) ∧
    (10 ∣ total → memColour used total = specThresholdColour used total) ∧
    memoryWidgetColours used total u2 total =
      (memColour used total, memColour u2 total) ∧
    memColour 13958643712 17179869184 = Colour.red := by
  refine ⟨?_, ?_, ?_, ?_, ?_, rfl, by decide⟩
  · simp only [memColour]
    split_ifs <;> simp [Colour.rank] <;> omega
  · simp only [memColour]
    split_ifs <;> simp <;> omega
  · simp only [memColour]
    split_ifs <;> simp <;> omega
  · simp only [memColour]
    split_ifs <;> simp <;> omega
  · rintro ⟨t, rfl⟩
    have e1 : 10 * t / 2 = 5 * t := by omega
    have e2 : 10 * t / 5 * 4 = 8 * t := by omega
    simp only [memColour, specThresholdColour, e1, e2]
    split_ifs <;> first | rfl | omega

/-- C7 witness: monotonicity at (3,5,10), exact-percentage agreement at
total=10, and the Scenario-3 classification. -/
theorem C7_thresholds_witness :
    (memColour 3 10).rank ≤ (memColour 5 10).rank ∧
    memColour 3 10 = specThresholdColour 3 10 ∧
    memColour 13958643712 17179869184 = Colour.red := by
  have h := C7_thresholds 3 5 10 (by decide)
  exact ⟨h.1, h.2.2.2.2.1 (by decide), h.2.2.2.2.2.2⟩

/-- C3 counterexample: the claim asserts that every tick with parsed
current > 0 and charge ≥ 0 yields a sample with
`time_till_empty = 3600 × charge/current`.  At current=1,
charge=2^64−1 (both in the parsed `u64` domain), the value
3600×(2^64−1) overflows `Duration`, so `Duration::from_secs_f64` panics and
the tick produces no sample at all. -/
theorem C3_overflow_panics :
    parseU64 (strTrim "1") = some 1 ∧
    parseU64 (strTrim "10000000000000000000") = some 10000000000000000000 ∧
    10000000000000000000 < 2 ^ 64 ∧
    Battery.sample filesOverflow = none := by
  refine ⟨by decide, by decide, by norm_num, ?_⟩
  have h1 : parseU64 (strTrim "1") = some 1 := by decide
  have h2 : parseU64 (strTrim "10000000000000000000") =
      some 10000000000000000000 := by decide
  have h3 : parseU64 (strTrim "73") = some 73 := by decide
  have hdiv : u64DivF64 10000000000000000000 1 =
      F64.finite ((10000000000000000000 : ℚ)) := by
    rw [u64DivF64, if_neg one_ne_zero]
    norm_num
  have hdur : durationFromSecsF64
      ((F64.finite ((10000000000000000000 : ℚ))).mulConst 3600) = none := by
    simp only [F64.mulConst, durationFromSecsF64]
    rw [if_neg]
    push_cast
    norm_num
  simp [Battery.sample, filesOverflow, h1, h2, h3, hdiv, hdur]

/-- C3 as amended: for every battery tick whose files are readable, whose
`current_now` parses to current > 0 and `charge_now` parses to charge ≥ 0,
and whose estimate does not overflow `Duration`
(3600×charge < 2^64×current), the sample's `time_till_empty` is exactly
3600 × charge/current seconds (at the idealized exact-rational reading of
the `f64` arithmetic). -/
theorem C3_time_till_empty (fs : BatteryFiles) (cur chg cap st : String)
    (current charge capv : ℕ)
    (hfs : fs = { current_now := some cur, charge_now := some chg,
                  capacity := some cap, status := some st })
    (hcur : parseU64 (strTrim cur) = some current)
    (hchg : parseU64 (strTrim chg) = some charge)
    (hcap : parseU64 (strTrim cap) = some capv)
    (hpos : 0 < current)
    (hbound : 3600 * charge < 2 ^ 64 * current) :
    Battery.sample fs =
      some { status := battStatusOf st, capacity := capv,
             time_till_empty := 3600 * (charge : ℚ) / (current : ℚ) } := by
  subst hfs
  have hc0 : current ≠ 0 := Nat.pos_iff_ne_zero.mp hpos
  have hcq : (0 : ℚ) < (current : ℚ) := by exact_mod_cast hpos
  have hval : (charge : ℚ) / (current : ℚ) * ((3600 : ℕ) : ℚ) < 2 ^ 64 := by
    rw [div_mul_eq_mul_div, div_lt_iff₀ hcq]
    push_cast
    calc (charge : ℚ) * 3600 = 3600 * charge := by ring
    _ < 2 ^ 64 * current := by exact_mod_cast hbound
  have hnn : (0 : ℚ) ≤ (charge : ℚ) / (current : ℚ) * ((3600 : ℕ) : ℚ) := by
    positivity
  have hdiv : u64DivF64 charge current =
      F64.finite ((charge : ℚ) / (current : ℚ)) := by
    rw [u64DivF64, if_neg hc0]
  have hdur : durationFromSecsF64
      ((F64.finite ((charge : ℚ) / (current : ℚ))).mulConst 3600) =
      some ((charge : ℚ) / (current : ℚ) * ((3600 : ℕ) : ℚ)) := by
    simp only [F64.mulConst, durationFromSecsF64]
    rw [if_pos ⟨hnn, hval⟩]
  have hfinal : (charge : ℚ) / (current : ℚ) * ((3600 : ℕ) : ℚ) =
      3600 * (charge : ℚ) / (current : ℚ) := by
    push_cast
    ring
  simp [Battery.sample, hcur, hchg, hcap, hdiv, hdur, hfinal]
  ring

/-- C3 witness: Scenario 1 — current=500000, charge=2000000, capacity=73,
status "Discharging" yields Sample{Discharging, 73, 14400s = 4h}. -/
theorem C3_time_till_empty_witness :
    Battery.sample fsS1 =
      some { status := ChargeStatus.discharging, capacity := 73,
             time_till_empty := 14400 } ∧
    (14400 : ℚ) = 4 * 3600 := by
  have h := C3_time_till_empty fsS1 "500000\n" "2000000\n" "73\n"
    "Discharging\n" 500000 2000000 73 rfl (by decide) (by decide) (by decide)
    (by decide) (by norm_num)
  have hst : battStatusOf "Discharging\n" = ChargeStatus.discharging := by
    decide
  rw [h, hst]
  norm_num

/-- C6: for every fragment emitted by the Battery and Memory widgets, the
markup flag is set iff a custom render hook was supplied at construction
(when one is, regardless of the hook's output), and when no hook is supplied
the built-in formatter's output contains no markup-reserved characters. -/
theorem C6_markup_iff_hook (b : Battery) (fs : BatteryFiles) (out : List Text)
    (m : MemoryUsage) (os : MemCounters) :
    (b.tick fs = some out → ∀ t ∈ out,
      (t.markup = true ↔ b.render.isSome = true) ∧
      (b.render = none → noMarkupChars t.text)) ∧
    (∀ t ∈ m.tick os,
      (t.markup = true ↔ m.render.isSome = true) ∧
      (m.render = none → noMarkupChars t.text)) := by
  constructor
  · intro htick t ht
    rcases hs : Battery.sample fs with _ | info
    · rw [Battery.tick, hs] at htick
      simp at htick
    · rw [Battery.tick, hs] at htick
      simp only [Option.map_some'] at htick
      injection htick with h
      subst h
      simp only [List.mem_singleton] at ht
      subst ht
      refine ⟨by simp, ?_⟩
      intro hr
      simp only [hr]
      exact noMarkupChars_batteryDefaultFormat info
  · intro t ht
    simp only [MemoryUsage.tick, List.mem_singleton] at ht
    subst ht
    refine ⟨by simp, ?_⟩
    intro hr
    simp only [hr]
    exact noMarkupChars_memoryDefaultFormat _ _ _ _

/-- C6 witness: `batt0` (no hook) on `fsProbe` emits a markup-free fragment
with `markup = false`; `memHook` (hook supplied) emits `markup = true`. -/
theorem C6_markup_iff_hook_witness :
    fragProbe.markup = false ∧ noMarkupChars fragProbe.text ∧
    ∀ t ∈ memHook.tick osProbe, t.markup = true := by
  have h := (C6_markup_iff_hook batt0 fsProbe [fragProbe] memHook osProbe).1
    tick_fsProbe fragProbe (by simp)
  have hm := (C6_markup_iff_hook batt0 fsProbe [fragProbe] memHook osProbe).2
  refine ⟨?_, h.2 rfl, ?_⟩
  · have h1 := h.1
    simp only [batt0, Battery.new, Option.isSome_none] at h1
    simpa using h1
  · intro t ht
    exact (hm t ht).1.mpr (by simp [memHook, MemoryUsage.new])

set_option maxHeartbeats 1000000 in
/-- C8: battery error handling is asymmetric — a missing/unreadable source
file or a numeric field that fails to parse makes the tick panic (modelled
`none`: the `expect` terminates the whole process), while the status content
never decides whether the tick survives, an unrecognized status string
merely falling back to `Unknown`. -/
theorem C8_error_asymmetry (b : Battery) (fs : BatteryFiles) :
    (fs.current_now = none → b.tick fs = none) ∧
    (fs.charge_now = none → b.tick fs = none) ∧
    (fs.capacity = none → b.tick fs = none) ∧
    (fs.status = none → b.tick fs = none) ∧
    (∀ s, fs.current_now = some s → parseU64 (strTrim s) = none →
      b.tick fs = none) ∧
    (∀ s, fs.charge_now = some s → parseU64 (strTrim s) = none →
      b.tick fs = none) ∧
    (∀ s, fs.capacity = some s → parseU64 (strTrim s) = none →
      b.tick fs = none) ∧
    (∀ st st' : String,
      (Battery.sample { fs with status := some st }).isSome =
        (Battery.sample { fs with status := some st' }).isSome) ∧
    (∀ info st, fs.status = some st → Battery.sample fs = some info →
      strTrim st ∉
        (["Charging", "Discharging", "Full", "Not Charging"] : List String) →
      info.status = ChargeStatus.unknown) := by
  refine ⟨?_, ?_, ?_, ?_, ?_, ?_, ?_, ?_, ?_⟩
  · intro h
    have hsamp : Battery.sample fs = none := by
      rw [Battery.sample]
      simp [h]
    simp [Battery.tick, hsamp]
  · intro h
    have hsamp : Battery.sample fs = none := by
      rw [Battery.sample]
      simp [h]
    simp [Battery.tick, hsamp]
  · intro h
    have hsamp : Battery.sample fs = none := by
      rw [Battery.sample]
      simp [h]
    simp [Battery.tick, hsamp]
  · intro h
    have hsamp : Battery.sample fs = none := by
      rw [Battery.sample]
      simp [h]
    simp [Battery.tick, hsamp]
  · intro s hsome hparse
    have hsamp : Battery.sample fs = none := by
      rw [Battery.sample]
      simp [hsome, hparse]
    simp [Battery.tick, hsamp]
  · intro s hsome hparse
    have hsamp : Battery.sample fs = none := by
      rw [Battery.sample]
      simp [hsome, hparse]
    simp [Battery.tick, hsamp]
  · intro s hsome hparse
    have hsamp : Battery.sample fs = none := by
      rw [Battery.sample]
      simp [hsome, hparse]
    simp [Battery.tick, hsamp]
  · intro st st'
    rcases h1 : fs.current_now with _ | s1
    · simp [Battery.sample, h1]
    rcases h2 : fs.charge_now with _ | s2
    · simp [Battery.sample, h1, h2]
    rcases h3 : fs.capacity with _ | s3
    · simp [Battery.sample, h1, h2, h3]
    rcases h4 : parseU64 (strTrim s1) with _ | v1
    · simp [Battery.sample, h1, h2, h3, h4]
    rcases h5 : parseU64 (strTrim s2) with _ | v2
    · simp [Battery.sample, h1, h2, h3, h4, h5]
    rcases h6 : parseU64 (strTrim s3) with _ | v3
    · simp [Battery.sample, h1, h2, h3, h4, h5, h6]
    rcases h7 : durationFromSecsF64 ((u64DivF64 v2 v1).mulConst 3600)
      with _ | d
    · simp [Battery.sample, h1, h2, h3, h4, h5, h6, h7]
    · simp [Battery.sample, h1, h2, h3, h4, h5, h6, h7]
  · intro info st hst hsample hnot
    rcases h1 : fs.current_now with _ | s1
    · rw [Battery.sample] at hsample
      simp [h1] at hsample
    rcases h2 : fs.charge_now with _ | s2
    · rw [Battery.sample] at hsample
      simp [h1, h2] at hsample
    rcases h3 : fs.capacity with _ | s3
    · rw [Battery.sample] at hsample
      simp [h1, h2, h3] at hsample
    rcases h4 : parseU64 (strTrim s1) with _ | v1
    · rw [Battery.sample] at hsample
      simp [h1, h2, h3, hst, h4] at hsample
    rcases h5 : parseU64 (strTrim s2) with _ | v2
    · rw [Battery.sample] at hsample
      simp [h1, h2, h3, hst, h4, h5] at hsample
    rcases h6 : parseU64 (strTrim s3) with _ | v3
    · rw [Battery.sample] at hsample
      simp [h1, h2, h3, hst, h4, h5, h6] at hsample
    rcases h7 : durationFromSecsF64 ((u64DivF64 v2 v1).mulConst 3600)
      with _ | d
    · rw [Battery.sample] at hsample
      simp [h1, h2, h3, hst, h4, h5, h6, h7] at hsample
    · rw [Battery.sample] at hsample
      simp [h1, h2, h3, hst, h4, h5, h6, h7] at hsample
      rw [← hsample]
      exact battStatusOf_eq_unknown st hnot

/-- C8 witness: a missing `current_now` is fatal, a non-numeric
`current_now` is fatal, while the unrecognized status `"Plugged"` leaves the
tick alive with status `Unknown`. -/
theorem C8_error_asymmetry_witness :
    batt0.tick { fsProbe with current_now := none } = none ∧
    batt0.tick { fsProbe with current_now := some "abc" } = none ∧
    Battery.sample fsProbe = some infoProbe ∧
    infoProbe.status = ChargeStatus.unknown :=
  ⟨(C8_error_asymmetry batt0 _).1 rfl,
    (C8_error_asymmetry batt0 _).2.2.2.2.1 "abc" rfl (by decide),
    sample_fsProbe,
    (C8_error_asymmetry batt0 fsProbe).2.2.2.2.2.2.2.2 infoProbe "Plugged"
      rfl sample_fsProbe (by decide)⟩

/-- C10: every successful tick of either widget returns exactly one fragment
(not merely at least one), with `stretch = false` and the attribute set
supplied at construction, whatever was read from the OS. -/
theorem C10_single_fragment (b : Battery) (fs : BatteryFiles)
    (out : List Text) (m : MemoryUsage) (os : MemCounters) (a : Attributes)
    (r : Option (BatteryInfo → String)) (i : ℚ) (p : String)
    (ra : Attributes) (rr : Option ((ℕ × ℕ) → (ℕ × ℕ) → String)) :
    (b.tick fs = some out →
      out.length = 1 ∧ ∀ t ∈ out, t.stretch = false ∧ t.attr = b.attrs) ∧
    ((m.tick os).length = 1 ∧
      ∀ t ∈ m.tick os, t.stretch = false ∧ t.attr = m.attrs) ∧
    (Battery.new a r i p).attrs = a ∧ (MemoryUsage.new ra rr).attrs = ra := by
  refine ⟨?_, ⟨by simp [MemoryUsage.tick], ?_⟩, rfl, rfl⟩
  · intro htick
    rcases hs : Battery.sample fs with _ | info
    · rw [Battery.tick, hs] at htick
      simp at htick
    · rw [Battery.tick, hs] at htick
      simp only [Option.map_some'] at htick
      injection htick with h
      subst h
      refine ⟨rfl, ?_⟩
      intro t ht
      simp only [List.mem_singleton] at ht
      subst ht
      exact ⟨rfl, rfl⟩
  · intro t ht
    simp only [MemoryUsage.tick, List.mem_singleton] at ht
    subst ht
    exact ⟨rfl, rfl⟩

/-- C10 witness: the Battery conclusion at the concrete successful tick of
`batt0` on `fsProbe`, and the Memory fragment count at `osProbe`. -/
theorem C10_single_fragment_witness :
    ([fragProbe].length = 1 ∧
      ∀ t ∈ [fragProbe], t.stretch = false ∧ t.attr = batt0.attrs) ∧
    (mem0.tick osProbe).length = 1 :=
  ⟨(C10_single_fragment batt0 fsProbe [fragProbe] mem0 osProbe attrs0 none 30
      "p" attrs0 none).1 tick_fsProbe,
    (C10_single_fragment batt0 fsProbe [fragProbe] mem0 osProbe attrs0 none 30
      "p" attrs0 none).2.1.1⟩
